import Mathlib

/-!
Verification of the PharmacyUI session/auth lifecycle and API error
normalization layer: a shallow embedding of `ApiClient` (src/services/api.ts)
and of the `AuthProvider` session store (src/contexts/AuthContext.tsx),
with theorems checking the specified contracts against the embedded code.

JavaScript conventions are modelled explicitly: optional JSON fields are
`Option` values, JS truthiness (`undefined`, `null`, `""`, `0` are falsy)
is the `truthy*` predicates, and `a || b` is the `jsOr*` helpers.
-/

namespace PharmacyUI

/-- JS truthiness for an optional string: absent (`undefined`/`null`) and
the empty string are falsy. -/
def truthyStr : Option String → Bool
  | none => false
  | some s => !(s == "")

/-- JS truthiness for an optional number: absent and `0` are falsy. -/
def truthyNat : Option Nat → Bool
  | none => false
  | some n => !(n == 0)

/-- JS `a || b` on an optional string `a` with string fallback `b`. -/
def jsOrStr (a : Option String) (b : String) : String :=
  if truthyStr a then a.getD "" else b

/-- JS `a || b` on an optional number `a` with numeric fallback `b`. -/
def jsOrNat (a : Option Nat) (b : Nat) : Nat :=
  if truthyNat a then a.getD 0 else b

/-- The fields of a parsed JSON response body that the error-normalization
code of `ApiClient.request` / `ApiClient.importProductsCSV` inspects
(`data?.message`, `data?.detail`, `data?.status_code`). -/
structure JsonBody where
  message : Option String
  detail : Option String
  status_code : Option Nat
  deriving Repr, DecidableEq

/-- A JS `Error` value as the client builds and rethrows it: `name` is the
built-in class tag (`"Error"` for `new Error(...)`, `"TypeError"` for a
`fetch` transport failure), and the client may attach a `status` and the
parsed body as `data` (absent when never assigned). -/
structure JsError where
  name : String
  message : String
  status : Option Nat
  data : Option (Option JsonBody)
  deriving Repr, DecidableEq

/-- Outcome of `fetch` plus body parsing: either the promise rejects with a
`TypeError` (transport-level failure), or a response arrives with an HTTP
status and a parsed body (`none` when the body is empty or not JSON, which
`response.json().catch` maps to `null`). -/
inductive FetchOutcome where
  | transportError (msg : String)
  | response (status : Nat) (body : Option JsonBody)
  deriving Repr, DecidableEq

/-- The error `ApiClient.request` constructs for a non-ok HTTP response:
`message = data?.message || data?.detail || "Request failed with status " + status`,
`status = data?.status_code || response.status`, `data = data`. -/
def httpError (status : Nat) (body : Option JsonBody) : JsError :=
  { name := "Error"
  , message := jsOrStr (Option.bind body JsonBody.message)
      (jsOrStr (Option.bind body JsonBody.detail)
        ("Request failed with status " ++ toString status))
  , status := some (jsOrNat (Option.bind body JsonBody.status_code) status)
  , data := some body }

/-- The `try` block of `ApiClient.request`: ok responses return the parsed
body, non-ok responses throw `httpError`, a transport failure propagates as
a `TypeError`. `response.ok` is status in [200, 300). -/
def requestTry (outcome : FetchOutcome) : Except JsError (Option JsonBody) :=
  match outcome with
  | .transportError msg =>
      .error { name := "TypeError", message := msg, status := none, data := none }
  | .response status body =>
      if 200 ≤ status ∧ status < 300 then .ok body
      else .error (httpError status body)

/-- The `catch` block of `ApiClient.request` and `ApiClient.importProductsCSV`:
a `TypeError` is replaced by a fixed network-error message, every other
error is rethrown unchanged. -/
def requestCatch (e : JsError) : JsError :=
  if e.name == "TypeError" then
    { name := "Error"
    , message := "Network error. Please check your internet connection."
    , status := none
    , data := none }
  else e

/-- `ApiClient.request` as a whole: the `try` body with the `catch` rewrite
applied on the failure channel. -/
def requestResult (outcome : FetchOutcome) : Except JsError (Option JsonBody) :=
  match requestTry outcome with
  | .ok d => .ok d
  | .error e => .error (requestCatch e)

/-- The error `ApiClient.importProductsCSV` constructs for a non-ok response:
`message = data?.message || "CSV import failed with status " + status`
(no `detail` fallback), same `status` and `data` rules as `httpError`. -/
def csvImportError (status : Nat) (body : Option JsonBody) : JsError :=
  { name := "Error"
  , message := jsOrStr (Option.bind body JsonBody.message)
      ("CSV import failed with status " ++ toString status)
  , status := some (jsOrNat (Option.bind body JsonBody.status_code) status)
  , data := some body }

/-- The `try` block of `ApiClient.importProductsCSV`. -/
def importCSVTry (outcome : FetchOutcome) : Except JsError (Option JsonBody) :=
  match outcome with
  | .transportError msg =>
      .error { name := "TypeError", message := msg, status := none, data := none }
  | .response status body =>
      if 200 ≤ status ∧ status < 300 then .ok body
      else .error (csvImportError status body)

/-- `ApiClient.importProductsCSV` as a whole: its `try` body with the same
`catch` rewrite as `request`. -/
def importCSVResult (outcome : FetchOutcome) : Except JsError (Option JsonBody) :=
  match importCSVTry outcome with
  | .ok d => .ok d
  | .error e => .error (requestCatch e)

/-- The two fixed localStorage keys the client uses. -/
structure Storage where
  accessToken : Option String
  refreshToken : Option String
  deriving Repr, DecidableEq

/-- The only two header keys the client ever sets. -/
structure Headers where
  contentType : Option String
  authorization : Option String
  deriving Repr, DecidableEq

/-- `ApiClient.getHeaders(includeAuth)`: always sets the JSON content type;
when `includeAuth` and a truthy token is in storage, adds
`Authorization: Token <token>`. -/
def getHeaders (st : Storage) (includeAuth : Bool) : Headers :=
  let base : Headers := { contentType := some "application/json", authorization := none }
  if includeAuth && truthyStr st.accessToken then
    { base with authorization := some ("Token " ++ st.accessToken.getD "") }
  else base

/-- The absent `options.headers` of a call that passes no header override. -/
def emptyHeaders : Headers := { contentType := none, authorization := none }

/-- The header merge in `ApiClient.request`:
`{ ...this.getHeaders(true), ...options.headers }` — keys present in the
override shadow the base, keys absent in the override keep the base value. -/
def requestHeaders (st : Storage) (override : Headers) : Headers :=
  let base := getHeaders st true
  { contentType := Option.orElse override.contentType (fun _ => base.contentType)
  , authorization := Option.orElse override.authorization (fun _ => base.authorization) }

/-- The headers actually sent by `ApiClient.login` / `ApiClient.register`,
which pass `headers: this.getHeaders(false)` as the override. -/
def loginRequestHeaders (st : Storage) : Headers :=
  requestHeaders st (getHeaders st false)

/-- The headers sent by `ApiClient.importProductsCSV`:
`{ ...this.getHeaders(true) }` with the `Content-Type` key deleted. -/
def importCSVHeaders (st : Storage) : Headers :=
  let h := getHeaders st true
  { h with contentType := none }

/-- The user profile fetched from `GET /user/`. -/
structure User where
  id : Nat
  username : String
  email : String
  deriving Repr, DecidableEq

/-- A parsed login/register response body: the fields the `AuthProvider`
inspects (`token`, `access`, `refresh`, `user`), each possibly absent. -/
structure AuthResponse where
  token : Option String
  access : Option String
  refresh : Option String
  user : Option User
  deriving Repr, DecidableEq

/-- The `AuthProvider` state: the three React state cells plus localStorage. -/
structure AuthState where
  user : Option User
  accessToken : Option String
  refreshToken : Option String
  storage : Storage
  deriving Repr, DecidableEq

/-- The state at `AuthProvider` mount: `user` starts `null` and the token
cells are initialized from `localStorage.getItem`. -/
def startState (st : Storage) : AuthState :=
  { user := none, accessToken := st.accessToken, refreshToken := st.refreshToken
  , storage := st }

/-- `localStorage.setItem` string coercion: JS stores the string
`"undefined"` when the value is `undefined`. -/
def setItemValue : Option String → String
  | none => "undefined"
  | some s => s

/-- The `else if` arm of the login handler: a truthy `access` is persisted
as the primary credential and then a truthy `refresh` as the secondary one;
otherwise nothing changes. -/
def persistAccess (s : AuthState) (r : AuthResponse) : AuthState :=
  if truthyStr r.access then
    let a := r.access.getD ""
    let s1 : AuthState :=
      { s with
        storage := { s.storage with accessToken := some a }
        accessToken := some a }
    if truthyStr r.refresh then
      let rf := r.refresh.getD ""
      { s1 with
        storage := { s1.storage with refreshToken := some rf }
        refreshToken := some rf }
    else s1
  else s

/-- The credential-persisting block of the `login` handler: on an object
response, a truthy `token` wins, else a truthy `access` (with optional
`refresh`); a non-object response or any other shape changes nothing. -/
def persistLoginTokens (s : AuthState) (resp : Option AuthResponse) : AuthState :=
  match resp with
  | none => s
  | some r =>
    if truthyStr r.token then
      let t := r.token.getD ""
      { s with
        storage := { s.storage with accessToken := some t }
        accessToken := some t }
    else persistAccess s r

/-- The whole `login` handler after the login request succeeded with body
`resp`: persist credentials by shape, then fetch the profile; a successful
fetch installs the user, a failed one leaves the state as persisted and the
error (second component) propagates to the caller. -/
def loginRun (s : AuthState) (resp : Option AuthResponse)
    (fetch : Except JsError User) : AuthState × Option JsError :=
  let s1 := persistLoginTokens s resp
  match fetch with
  | .ok u => ({ s1 with user := some u }, none)
  | .error e => (s1, some e)

/-- The headers the profile fetch inside `login` sends: `apiClient.getUser()`
goes through `request` with no header override, after the response tokens
were persisted. -/
def profileFetchHeaders (s : AuthState) (resp : Option AuthResponse) : Headers :=
  requestHeaders (persistLoginTokens s resp).storage emptyHeaders

/-- The `register` handler after the request succeeded with body `r`:
`localStorage.setItem` of `response.token` (with JS string coercion),
`setAccessToken(response.token)` and `setUser(response.user)` — no shape
detection, no refresh handling. -/
def registerRun (s : AuthState) (r : AuthResponse) : AuthState :=
  { s with
    storage := { s.storage with accessToken := some (setItemValue r.token) }
  , accessToken := r.token
  , user := r.user }

/-- The `logout` handler: remove both storage keys and clear all three
state cells. It is a total pure function: it cannot fail. -/
def logoutRun (_ : AuthState) : AuthState :=
  { user := none, accessToken := none, refreshToken := none
  , storage := { accessToken := none, refreshToken := none } }

/-- The `initAuth` startup effect, run from storage `st` with profile-fetch
outcome `fetch`: with a truthy stored token it installs the tokens and
fetches the profile; the `catch` clears storage and state on fetch failure
(the failure is swallowed: `initRun` is total and returns a plain state);
with no truthy stored token nothing is fetched. -/
def initRun (st : Storage) (fetch : Except JsError User) : AuthState :=
  if truthyStr st.accessToken then
    match fetch with
    | .ok u => { startState st with user := some u }
    | .error _ =>
        { user := none, accessToken := none, refreshToken := none
        , storage := { accessToken := none, refreshToken := none } }
  else startState st

/-- `isAuthenticated` as exposed by the provider: `!!accessToken`. -/
def isAuthenticated (s : AuthState) : Bool :=
  truthyStr s.accessToken

/-- One session-store operation together with the backend outcome that
drives it (the backend is a black box, so outcomes are parameters). -/
inductive AuthOp where
  | init (fetch : Except JsError User)
  | login (resp : Option AuthResponse) (fetch : Except JsError User)
  | register (resp : AuthResponse)
  | logout

/-- The state transition of each operation. -/
def stepAuth (s : AuthState) : AuthOp → AuthState
  | .init fetch => initRun s.storage fetch
  | .login resp fetch => (loginRun s resp fetch).1
  | .register resp => registerRun s resp
  | .logout => logoutRun s

/-- Sanity conditions on the backend outcome of an operation: a profile
fetch succeeds only when a truthy credential is in storage at fetch time
(`GET /user/` is an authenticated endpoint), and a successful register
response carries a truthy token (the documented `{token, user}` shape). -/
def goodOp (s : AuthState) : AuthOp → Prop
  | .init _ => True
  | .login resp fetch =>
      ∀ u, fetch = Except.ok u →
        truthyStr (persistLoginTokens s resp).storage.accessToken = true
  | .register resp => truthyStr resp.token = true
  | .logout => True

/-- A login response body that matches neither credential shape the login
handler inspects: `null`/non-object, or an object with no truthy `token`
and no truthy `access` field. -/
def shapelessResp : Option AuthResponse → Bool
  | none => true
  | some r => !(truthyStr r.token) && !(truthyStr r.access)

/-- States reachable by arbitrary operation sequences, with no assumption
at all on the backend outcomes. -/
inductive ReachableAny : AuthState → Prop where
  | start (st : Storage) : ReachableAny (startState st)
  | step (s : AuthState) (op : AuthOp) :
      ReachableAny s → ReachableAny (stepAuth s op)

/-- States reachable by operation sequences whose backend outcomes satisfy
`goodOp`. -/
inductive ReachableSane : AuthState → Prop where
  | start (st : Storage) : ReachableSane (startState st)
  | step (s : AuthState) (op : AuthOp) :
      ReachableSane s → goodOp s op → ReachableSane (stepAuth s op)

/-! ## Helper lemmas -/

theorem truthy_isSome (o : Option String) (h : truthyStr o = true) :
    o.isSome = true := by
  cases o <;> simp [truthyStr] at h ⊢

theorem truthy_eq_some (o : Option String) (h : truthyStr o = true) :
    ∃ t, o = some t ∧ t ≠ "" := by
  cases o with
  | none => simp [truthyStr] at h
  | some s =>
    refine ⟨s, rfl, ?_⟩
    simp [truthyStr] at h
    exact h

theorem jsOrStr_of_truthy (a : Option String) (b t : String)
    (ha : a = some t) (ht : t ≠ "") : jsOrStr a b = t := by
  subst ha
  simp [jsOrStr, truthyStr, ht]

theorem jsOrStr_of_falsy (a : Option String) (b : String)
    (ha : truthyStr a = false) : jsOrStr a b = b := by
  simp [jsOrStr, ha]

theorem jsOrNat_of_truthy (a : Option Nat) (b n : Nat)
    (ha : a = some n) (hn : n ≠ 0) : jsOrNat a b = n := by
  subst ha
  simp [jsOrNat, truthyNat, hn]

theorem jsOrNat_of_falsy (a : Option Nat) (b : Nat)
    (ha : truthyNat a = false) : jsOrNat a b = b := by
  simp [jsOrNat, ha]

theorem requestCatch_httpError (status : Nat) (body : Option JsonBody) :
    requestCatch (httpError status body) = httpError status body := by
  simp [requestCatch, httpError]

theorem requestResult_not_ok (status : Nat) (body : Option JsonBody)
    (h : ¬ (200 ≤ status ∧ status < 300)) :
    requestResult (.response status body) = .error (httpError status body) := by
  simp [requestResult, requestTry, h, requestCatch_httpError]

theorem requestCatch_csvImportError (status : Nat) (body : Option JsonBody) :
    requestCatch (csvImportError status body) = csvImportError status body := by
  simp [requestCatch, csvImportError]

theorem importCSVResult_not_ok (status : Nat) (body : Option JsonBody)
    (h : ¬ (200 ≤ status ∧ status < 300)) :
    importCSVResult (.response status body) = .error (csvImportError status body) := by
  simp [importCSVResult, importCSVTry, h, requestCatch_csvImportError]

theorem persistLoginTokens_user (s : AuthState) (resp : Option AuthResponse) :
    (persistLoginTokens s resp).user = s.user := by
  cases resp with
  | none => rfl
  | some r =>
    by_cases h1 : truthyStr r.token = true
    · simp [persistLoginTokens, h1]
    · by_cases h2 : truthyStr r.access = true
      · by_cases h3 : truthyStr r.refresh = true
        · simp [persistLoginTokens, persistAccess, h1, h2, h3]
        · simp [persistLoginTokens, persistAccess, h1, h2, h3]
      · simp [persistLoginTokens, persistAccess, h1, h2]

theorem persistLoginTokens_sync (s : AuthState) (resp : Option AuthResponse)
    (h : s.accessToken = s.storage.accessToken) :
    (persistLoginTokens s resp).accessToken =
      (persistLoginTokens s resp).storage.accessToken := by
  cases resp with
  | none => exact h
  | some r =>
    by_cases h1 : truthyStr r.token = true
    · simp [persistLoginTokens, h1]
    · by_cases h2 : truthyStr r.access = true
      · by_cases h3 : truthyStr r.refresh = true
        · simp [persistLoginTokens, persistAccess, h1, h2, h3]
        · simp [persistLoginTokens, persistAccess, h1, h2, h3]
      · simpa [persistLoginTokens, persistAccess, h1, h2] using h

theorem persistLoginTokens_isSome (s : AuthState) (resp : Option AuthResponse)
    (h : s.accessToken.isSome = true) :
    (persistLoginTokens s resp).accessToken.isSome = true := by
  cases resp with
  | none => exact h
  | some r =>
    by_cases h1 : truthyStr r.token = true
    · simp [persistLoginTokens, h1]
    · by_cases h2 : truthyStr r.access = true
      · by_cases h3 : truthyStr r.refresh = true
        · simp [persistLoginTokens, persistAccess, h1, h2, h3]
        · simp [persistLoginTokens, persistAccess, h1, h2, h3]
      · simpa [persistLoginTokens, persistAccess, h1, h2] using h

theorem getHeaders_auth_of_truthy (st : Storage) (t : String)
    (ht : st.accessToken = some t) (hne : t ≠ "") :
    (getHeaders st true).authorization = some ("Token " ++ t) := by
  simp [getHeaders, truthyStr, ht, hne]

/-- The core invariant of sanely reachable session states: the in-memory
access token mirrors the persisted one, and a populated profile implies a
present in-memory credential. -/
theorem reachableSane_inv (s : AuthState) (h : ReachableSane s) :
    s.accessToken = s.storage.accessToken ∧
    (s.user.isSome = true → s.accessToken.isSome = true) := by
  induction h with
  | start st => exact ⟨rfl, by simp [startState]⟩
  | step s op hs hgood ih =>
    obtain ⟨ihsync, ihuser⟩ := ih
    cases op with
    | init fetch =>
      cases fetch with
      | ok u =>
        by_cases ht : truthyStr s.storage.accessToken = true
        · refine ⟨by simp [stepAuth, initRun, ht, startState], fun _ => ?_⟩
          have h2 := truthy_isSome s.storage.accessToken ht
          simpa [stepAuth, initRun, ht, startState] using h2
        · refine ⟨by simp [stepAuth, initRun, ht, startState], ?_⟩
          simp [stepAuth, initRun, ht, startState]
      | error e =>
        by_cases ht : truthyStr s.storage.accessToken = true
        · simp [stepAuth, initRun, ht]
        · refine ⟨by simp [stepAuth, initRun, ht, startState], ?_⟩
          simp [stepAuth, initRun, ht, startState]
    | login resp fetch =>
      cases fetch with
      | ok u =>
        have hsync2 := persistLoginTokens_sync s resp ihsync
        have htruthy : truthyStr (persistLoginTokens s resp).storage.accessToken = true :=
          hgood u rfl
        have hSome := truthy_isSome _ htruthy
        constructor
        · simpa [stepAuth, loginRun] using hsync2
        · intro _
          have h3 : (persistLoginTokens s resp).accessToken.isSome = true := by
            rw [hsync2]
            exact hSome
          simpa [stepAuth, loginRun] using h3
      | error e =>
        constructor
        · simpa [stepAuth, loginRun] using persistLoginTokens_sync s resp ihsync
        · intro hu
          have hu2 : (persistLoginTokens s resp).user.isSome = true := by
            simpa [stepAuth, loginRun] using hu
          rw [persistLoginTokens_user] at hu2
          have h4 := persistLoginTokens_isSome s resp (ihuser hu2)
          simpa [stepAuth, loginRun] using h4
    | register resp =>
      have hg : truthyStr resp.token = true := hgood
      obtain ⟨t, hteq, htne⟩ := truthy_eq_some _ hg
      constructor
      · simp [stepAuth, registerRun, hteq, setItemValue]
      · intro _
        simp [stepAuth, registerRun, hteq]
    | logout =>
      refine ⟨by simp [stepAuth, logoutRun], ?_⟩
      simp [stepAuth, logoutRun]

/-! ## Claim theorems -/

/-- C1 (counterexample): the claim says the error message is the body
`message` field whenever that field is present. At HTTP 400 with body
`{ message: "", detail: "boom" }` the `message` field is present (the empty
string), yet `ApiClient.request` rejects with message `"boom"`: the JS `||`
chain skips a present-but-empty `message`. -/
theorem c1_counterexample :
    requestResult (.response 400
        (some { message := some "", detail := some "boom", status_code := none })) =
      .error { name := "Error", message := "boom", status := some 400
             , data := some (some { message := some "", detail := some "boom", status_code := none }) } ∧
    ("boom" : String) ≠ "" :=
  ⟨rfl, by decide⟩

/-- C1 (amended): for every non-success HTTP response, `ApiClient.request`
rejects (never returns) with an error whose message is the body `message`
field if present and non-empty, else the body `detail` field if present and
non-empty, else `"Request failed with status {code}"`; whose `status` is
the body `status_code` field if present and non-zero, else the HTTP status;
and whose `data` is the full parsed body. -/
theorem c1_error_normalization (status : Nat) (body : Option JsonBody)
    (h : ¬ (200 ≤ status ∧ status < 300)) :
    ∃ e : JsError,
      requestResult (.response status body) = .error e ∧
      e.name = "Error" ∧
      e.data = some body ∧
      (∀ m, Option.bind body JsonBody.message = some m → m ≠ "" → e.message = m) ∧
      (truthyStr (Option.bind body JsonBody.message) = false →
        ∀ d, Option.bind body JsonBody.detail = some d → d ≠ "" → e.message = d) ∧
      (truthyStr (Option.bind body JsonBody.message) = false →
        truthyStr (Option.bind body JsonBody.detail) = false →
        e.message = "Request failed with status " ++ toString status) ∧
      (∀ n, Option.bind body JsonBody.status_code = some n → n ≠ 0 → e.status = some n) ∧
      (truthyNat (Option.bind body JsonBody.status_code) = false → e.status = some status) := by
  refine ⟨httpError status body, requestResult_not_ok status body h, rfl, rfl, ?_, ?_, ?_, ?_, ?_⟩
  · intro m hm hne
    show jsOrStr _ _ = m
    exact jsOrStr_of_truthy _ _ m hm hne
  · intro hmf d hd hdne
    show jsOrStr _ _ = d
    rw [jsOrStr_of_falsy _ _ hmf]
    exact jsOrStr_of_truthy _ _ d hd hdne
  · intro hmf hdf
    show jsOrStr _ _ = _
    rw [jsOrStr_of_falsy _ _ hmf]
    exact jsOrStr_of_falsy _ _ hdf
  · intro n hn hnne
    show some (jsOrNat _ _) = some n
    rw [jsOrNat_of_truthy _ _ n hn hnne]
  · intro hnf
    show some (jsOrNat _ _) = some status
    rw [jsOrNat_of_falsy _ _ hnf]

/-- C1 (witness): at HTTP 500 with the empty JSON body `{}` the hypotheses
hold and the error message is exactly `"Request failed with status 500"`. -/
theorem c1_error_normalization_witness :
    (¬ (200 ≤ 500 ∧ 500 < 300)) ∧
    (∃ e : JsError,
      requestResult (.response 500 (some { message := none, detail := none, status_code := none })) = .error e ∧
      e.name = "Error" ∧
      e.data = some (some { message := none, detail := none, status_code := none }) ∧
      (∀ m, Option.bind (some { message := none, detail := none, status_code := none : JsonBody }) JsonBody.message = some m → m ≠ "" → e.message = m) ∧
      (truthyStr (Option.bind (some { message := none, detail := none, status_code := none : JsonBody }) JsonBody.message) = false →
        ∀ d, Option.bind (some { message := none, detail := none, status_code := none : JsonBody }) JsonBody.detail = some d → d ≠ "" → e.message = d) ∧
      (truthyStr (Option.bind (some { message := none, detail := none, status_code := none : JsonBody }) JsonBody.message) = false →
        truthyStr (Option.bind (some { message := none, detail := none, status_code := none : JsonBody }) JsonBody.detail) = false →
        e.message = "Request failed with status " ++ toString 500) ∧
      (∀ n, Option.bind (some { message := none, detail := none, status_code := none : JsonBody }) JsonBody.status_code = some n → n ≠ 0 → e.status = some n) ∧
      (truthyNat (Option.bind (some { message := none, detail := none, status_code := none : JsonBody }) JsonBody.status_code) = false → e.status = some 500)) :=
  ⟨by decide, c1_error_normalization 500 (some { message := none, detail := none, status_code := none }) (by decide)⟩

/-- C2 (code evaluated at the failing input): with a stale credential
`"stale"` in storage, the headers `ApiClient.login` / `ApiClient.register`
send carry `Authorization: Token stale`, even though the override they pass
(`getHeaders(false)`) deliberately contains no `Authorization` key. The
spread `{ ...getHeaders(true), ...options.headers }` in `request` keeps the
`Authorization` entry of the base because the override cannot shadow a key
it does not have. -/
theorem c2_login_sends_authorization :
    (getHeaders { accessToken := some "stale", refreshToken := none } false).authorization = none ∧
    (loginRequestHeaders { accessToken := some "stale", refreshToken := none }).authorization =
      some "Token stale" :=
  ⟨rfl, rfl⟩

/-- C8 (counterexample): the claim says the CSV upload path applies the same
message priority as `request`, including the `detail` fallback and the
generic `"Request failed with status {code}"` string. At HTTP 400 with body
`{ detail: "Invalid SKU" }`, `request` rejects with message `"Invalid SKU"`
but `importProductsCSV` rejects with
`"CSV import failed with status 400"`: the upload path never reads `detail`
and uses a different generic string. -/
theorem c8_counterexample :
    requestResult (.response 400
        (some { message := none, detail := some "Invalid SKU", status_code := none })) =
      .error { name := "Error", message := "Invalid SKU", status := some 400
             , data := some (some { message := none, detail := some "Invalid SKU", status_code := none }) } ∧
    importCSVResult (.response 400
        (some { message := none, detail := some "Invalid SKU", status_code := none })) =
      .error { name := "Error", message := "CSV import failed with status 400", status := some 400
             , data := some (some { message := none, detail := some "Invalid SKU", status_code := none }) } ∧
    ("Invalid SKU" : String) ≠ "CSV import failed with status 400" :=
  ⟨rfl, rfl, by decide⟩

/-- C8 (amended): for every non-success response, the CSV upload path
produces an error with the same `status` rule and the same raw body as the
generic request path, and the same transport-failure rewrite; but its
message priority is the body `message` field (if present and non-empty)
else the generic `"CSV import failed with status {code}"` — it has no
`detail` fallback and its generic string differs from the one of `request`.
Its headers omit the JSON content type (the multipart body replaces it) and
keep the `Authorization` entry. -/
theorem c8_csv_normalization (status : Nat) (body : Option JsonBody)
    (st : Storage) (m : String)
    (h : ¬ (200 ≤ status ∧ status < 300)) :
    ∃ e1 e2 : JsError,
      importCSVResult (.response status body) = .error e1 ∧
      requestResult (.response status body) = .error e2 ∧
      e1.status = e2.status ∧
      e1.data = e2.data ∧
      e1.data = some body ∧
      (∀ mm, Option.bind body JsonBody.message = some mm → mm ≠ "" → e1.message = mm) ∧
      (truthyStr (Option.bind body JsonBody.message) = false →
        e1.message = "CSV import failed with status " ++ toString status) ∧
      importCSVResult (.transportError m) = requestResult (.transportError m) ∧
      (importCSVHeaders st).contentType = none ∧
      (importCSVHeaders st).authorization = (getHeaders st true).authorization := by
  refine ⟨csvImportError status body, httpError status body,
    importCSVResult_not_ok status body h, requestResult_not_ok status body h,
    rfl, rfl, rfl, ?_, ?_, rfl, rfl, rfl⟩
  · intro mm hm hne
    show jsOrStr _ _ = mm
    exact jsOrStr_of_truthy _ _ mm hm hne
  · intro hmf
    show jsOrStr _ _ = _
    exact jsOrStr_of_falsy _ _ hmf

/-- C8 (witness): concrete instance at HTTP 400, empty body, a storage with
a credential, a transport message. -/
theorem c8_csv_normalization_witness :
    (¬ (200 ≤ 400 ∧ 400 < 300)) ∧
    (∃ e1 e2 : JsError,
      importCSVResult (.response 400 (none : Option JsonBody)) = .error e1 ∧
      requestResult (.response 400 (none : Option JsonBody)) = .error e2 ∧
      e1.status = e2.status ∧
      e1.data = e2.data ∧
      e1.data = some none ∧
      (∀ mm, Option.bind (none : Option JsonBody) JsonBody.message = some mm → mm ≠ "" → e1.message = mm) ∧
      (truthyStr (Option.bind (none : Option JsonBody) JsonBody.message) = false →
        e1.message = "CSV import failed with status " ++ toString 400) ∧
      importCSVResult (.transportError "Failed to fetch") = requestResult (.transportError "Failed to fetch") ∧
      (importCSVHeaders { accessToken := some "T", refreshToken := none }).contentType = none ∧
      (importCSVHeaders { accessToken := some "T", refreshToken := none }).authorization =
        (getHeaders { accessToken := some "T", refreshToken := none } true).authorization) :=
  ⟨by decide, c8_csv_normalization 400 none { accessToken := some "T", refreshToken := none }
    "Failed to fetch" (by decide)⟩

/-- C9: a transport-level failure (a `fetch` rejection with a `TypeError`,
whatever its original message) is rewritten by `request` — and by the CSV
upload path, which shares the same `catch` — to an error with exactly the
message `"Network error. Please check your internet connection."`, still on
the rejection channel; an error built from a non-success HTTP response has
`name = "Error"`, so the `TypeError` rewrite leaves it untouched. -/
theorem c9_network_error (m : String) (status : Nat) (body : Option JsonBody)
    (h : ¬ (200 ≤ status ∧ status < 300)) :
    requestResult (.transportError m) =
      .error { name := "Error"
             , message := "Network error. Please check your internet connection."
             , status := none, data := none } ∧
    importCSVResult (.transportError m) =
      .error { name := "Error"
             , message := "Network error. Please check your internet connection."
             , status := none, data := none } ∧
    requestResult (.response status body) = .error (httpError status body) := by
  refine ⟨rfl, rfl, requestResult_not_ok status body h⟩

/-- C9 (witness): concrete instance at transport message
`"Failed to fetch"` and HTTP 503 with no parseable body. -/
theorem c9_network_error_witness :
    (¬ (200 ≤ 503 ∧ 503 < 300)) ∧
    (requestResult (.transportError "Failed to fetch") =
      .error { name := "Error"
             , message := "Network error. Please check your internet connection."
             , status := none, data := none } ∧
    importCSVResult (.transportError "Failed to fetch") =
      .error { name := "Error"
             , message := "Network error. Please check your internet connection."
             , status := none, data := none } ∧
    requestResult (.response 503 (none : Option JsonBody)) = .error (httpError 503 none)) :=
  ⟨by decide, c9_network_error "Failed to fetch" 503 none (by decide)⟩

/-- C3 (counterexample): the claim says that a `{ access, refresh }`
response to `register` persists `access` as the primary credential. The
`register` handler does no shape detection: it unconditionally persists
`response.token`, so for the response
`{ access: "A", refresh: "R", user: {...} }` the stored primary credential
is the JS string coercion `"undefined"` of the absent `token` field, not
`"A"`, and the in-memory credential is cleared. -/
theorem c3_counterexample :
    (registerRun (startState { accessToken := none, refreshToken := none })
        { token := none, access := some "A", refresh := some "R"
        , user := some { id := 1, username := "u", email := "u@example.com" } }).storage.accessToken
      = some "undefined" ∧
    (registerRun (startState { accessToken := none, refreshToken := none })
        { token := none, access := some "A", refresh := some "R"
        , user := some { id := 1, username := "u", email := "u@example.com" } }).accessToken
      = none :=
  ⟨rfl, rfl⟩

/-- C3 (amended): shape detection happens only in the `login` handler: a
present non-empty `token` is persisted as the primary credential; failing
that, a present non-empty `access` is persisted as the primary credential
and a present non-empty `refresh` as the secondary one; any other shape
writes no credential at all. The `register` handler persists the `token`
field unconditionally (with JS string coercion when it is absent) and
installs the `user` field directly. -/
theorem c3_credential_persistence (s : AuthState) (r : AuthResponse) :
    (∀ t, r.token = some t → t ≠ "" →
        (persistLoginTokens s (some r)).storage.accessToken = some t ∧
        (persistLoginTokens s (some r)).accessToken = some t) ∧
    (truthyStr r.token = false →
      ∀ a, r.access = some a → a ≠ "" →
        (persistLoginTokens s (some r)).storage.accessToken = some a ∧
        (persistLoginTokens s (some r)).accessToken = some a ∧
        (∀ rf, r.refresh = some rf → rf ≠ "" →
          (persistLoginTokens s (some r)).storage.refreshToken = some rf ∧
          (persistLoginTokens s (some r)).refreshToken = some rf)) ∧
    (truthyStr r.token = false → truthyStr r.access = false →
      persistLoginTokens s (some r) = s) ∧
    (registerRun s r).storage.accessToken = some (setItemValue r.token) ∧
    (registerRun s r).accessToken = r.token ∧
    (registerRun s r).user = r.user := by
  refine ⟨?_, ?_, ?_, rfl, rfl, rfl⟩
  · intro t ht hne
    have h1 : truthyStr (some t) = true := by simp [truthyStr, hne]
    constructor <;> simp [persistLoginTokens, ht, h1]
  · intro hf a ha hane
    have h2 : truthyStr (some a) = true := by simp [truthyStr, hane]
    refine ⟨?_, ?_, ?_⟩
    · by_cases h3 : truthyStr r.refresh = true <;>
        simp [persistLoginTokens, persistAccess, hf, h2, h3, ha]
    · by_cases h3 : truthyStr r.refresh = true <;>
        simp [persistLoginTokens, persistAccess, hf, h2, h3, ha]
    · intro rf hrf hrfne
      have h3 : truthyStr (some rf) = true := by simp [truthyStr, hrfne]
      constructor <;>
        simp [persistLoginTokens, persistAccess, hf, h2, h3, ha, hrf]
  · intro hf1 hf2
    simp [persistLoginTokens, persistAccess, hf1, hf2]

/-- C3 (witness): a `{ token: "T1" }` login response persists `"T1"` as the
primary credential in storage. -/
theorem c3_credential_persistence_witness :
    (persistLoginTokens (startState { accessToken := none, refreshToken := none })
        (some { token := some "T1", access := none, refresh := none, user := none })).storage.accessToken
      = some "T1" ∧
    (persistLoginTokens (startState { accessToken := none, refreshToken := none })
        (some { token := some "T1", access := none, refresh := none, user := none })).accessToken
      = some "T1" :=
  (c3_credential_persistence (startState { accessToken := none, refreshToken := none })
      { token := some "T1", access := none, refresh := none, user := none }).1
    "T1" rfl (by decide)

/-- C4: from any sanely reachable state, when the backend is sane (the
profile fetch succeeds only with a truthy stored credential) and a `login`
call resolves successfully, `isAuthenticated` is true, the profile is
populated, and the credential persisted under the `accessToken` key is
exactly the value carried (as `Token <credential>`) in the `Authorization`
header of the next authenticated call. -/
theorem c4_login_postcondition (s : AuthState) (resp : Option AuthResponse)
    (fetch : Except JsError User)
    (hreach : ReachableSane s)
    (hsane : ∀ u, fetch = Except.ok u →
      truthyStr (persistLoginTokens s resp).storage.accessToken = true)
    (hres : (loginRun s resp fetch).2 = none) :
    isAuthenticated (loginRun s resp fetch).1 = true ∧
    (loginRun s resp fetch).1.user.isSome = true ∧
    ∃ t, (loginRun s resp fetch).1.storage.accessToken = some t ∧
      (requestHeaders (loginRun s resp fetch).1.storage emptyHeaders).authorization =
        some ("Token " ++ t) := by
  cases fetch with
  | error e => simp [loginRun] at hres
  | ok u =>
    have htruthy := hsane u rfl
    obtain ⟨t, hteq, htne⟩ := truthy_eq_some _ htruthy
    have hsync := persistLoginTokens_sync s resp (reachableSane_inv s hreach).1
    refine ⟨?_, ?_, t, ?_, ?_⟩
    · have h5 : truthyStr (persistLoginTokens s resp).accessToken = true := by
        rw [hsync]
        exact htruthy
      simpa [isAuthenticated, loginRun] using h5
    · simp [loginRun]
    · simpa [loginRun] using hteq
    · have hga := getHeaders_auth_of_truthy (persistLoginTokens s resp).storage t hteq htne
      simpa [loginRun, requestHeaders, emptyHeaders, Option.orElse] using hga

/-- C4 (witness): a fresh store, a `{ token: "T1" }` login response and a
successful profile fetch satisfy the hypotheses; the next call would send
`Authorization: Token T1`. -/
theorem c4_login_postcondition_witness :
    isAuthenticated (loginRun (startState { accessToken := none, refreshToken := none })
        (some { token := some "T1", access := none, refresh := none, user := none })
        (Except.ok { id := 1, username := "alice", email := "a@example.com" })).1 = true ∧
    (loginRun (startState { accessToken := none, refreshToken := none })
        (some { token := some "T1", access := none, refresh := none, user := none })
        (Except.ok { id := 1, username := "alice", email := "a@example.com" })).1.user.isSome = true ∧
    ∃ t, (loginRun (startState { accessToken := none, refreshToken := none })
        (some { token := some "T1", access := none, refresh := none, user := none })
        (Except.ok { id := 1, username := "alice", email := "a@example.com" })).1.storage.accessToken = some t ∧
      (requestHeaders (loginRun (startState { accessToken := none, refreshToken := none })
          (some { token := some "T1", access := none, refresh := none, user := none })
          (Except.ok { id := 1, username := "alice", email := "a@example.com" })).1.storage
        emptyHeaders).authorization = some ("Token " ++ t) :=
  c4_login_postcondition (startState { accessToken := none, refreshToken := none })
    (some { token := some "T1", access := none, refresh := none, user := none })
    (Except.ok { id := 1, username := "alice", email := "a@example.com" })
    (ReachableSane.start _) (fun _ _ => by decide) rfl

/-- Boundary remark showing the backend-shape assumption in `goodOp` is
necessary: with a `register` response that carries a `user` but no `token`
(violating the documented `{token, user}` register shape), the reached
state has a populated profile and no in-memory credential. -/
theorem register_without_token_breaks_invariant :
    ReachableAny (stepAuth (startState { accessToken := none, refreshToken := none })
        (.register { token := none, access := some "A", refresh := some "R"
                   , user := some { id := 1, username := "u", email := "u@example.com" } })) ∧
    (stepAuth (startState { accessToken := none, refreshToken := none })
        (.register { token := none, access := some "A", refresh := some "R"
                   , user := some { id := 1, username := "u", email := "u@example.com" } })).user.isSome = true ∧
    (stepAuth (startState { accessToken := none, refreshToken := none })
        (.register { token := none, access := some "A", refresh := some "R"
                   , user := some { id := 1, username := "u", email := "u@example.com" } })).accessToken.isSome = false :=
  ⟨ReachableAny.step _ _ (ReachableAny.start _), rfl, rfl⟩

/-- C5: in every state reachable by any sequence of session-store
operations (startup restore, login, register, logout) whose backend
outcomes respect the documented interface — the profile fetch of the
authenticated `GET /user/` succeeds only with a truthy stored credential,
and a successful register response carries the documented truthy `token` —
a present user profile implies a present in-memory credential. -/
theorem c5_user_implies_credential (s : AuthState) (h : ReachableSane s)
    (hu : s.user.isSome = true) : s.accessToken.isSome = true :=
  (reachableSane_inv s h).2 hu

/-- C5 (witness): the state after a successful `{ token: "T1" }` login from
a fresh store is sanely reachable, has a user, and indeed has a
credential. -/
theorem c5_user_implies_credential_witness :
    (stepAuth (startState { accessToken := none, refreshToken := none })
        (.login (some { token := some "T1", access := none, refresh := none, user := none })
          (Except.ok { id := 1, username := "alice", email := "a@example.com" }))).accessToken.isSome = true :=
  c5_user_implies_credential _
    (ReachableSane.step _ _ (ReachableSane.start _) (fun _ _ => by decide))
    rfl

/-- C6: when a truthy credential is persisted at startup and the profile
fetch fails, `initAuth` ends in the anonymous state: no user, both storage
keys removed, both in-memory tokens cleared, `isAuthenticated` false. The
failure is swallowed by the `catch`: `initRun` is a total function into
states, so no error reaches the caller. -/
theorem c6_restore_failure (st : Storage) (e : JsError)
    (h : truthyStr st.accessToken = true) :
    initRun st (.error e) =
      { user := none, accessToken := none, refreshToken := none
      , storage := { accessToken := none, refreshToken := none } } ∧
    isAuthenticated (initRun st (.error e)) = false := by
  have h1 : initRun st (.error e) =
      { user := none, accessToken := none, refreshToken := none
      , storage := { accessToken := none, refreshToken := none } } := by
    simp [initRun, h]
  exact ⟨h1, by rw [h1]; rfl⟩

/-- C6 (witness): concrete startup with both keys persisted and a 401
profile-fetch failure. -/
theorem c6_restore_failure_witness :
    initRun { accessToken := some "tok", refreshToken := some "ref" }
        (.error { name := "Error", message := "Invalid token.", status := some 401, data := some none }) =
      { user := none, accessToken := none, refreshToken := none
      , storage := { accessToken := none, refreshToken := none } } ∧
    isAuthenticated (initRun { accessToken := some "tok", refreshToken := some "ref" }
        (.error { name := "Error", message := "Invalid token.", status := some 401, data := some none })) = false :=
  c6_restore_failure { accessToken := some "tok", refreshToken := some "ref" }
    { name := "Error", message := "Invalid token.", status := some 401, data := some none }
    (by decide)

/-- C7: `logout` — a total, synchronous pure function that cannot fail —
clears both persisted keys, the in-memory tokens and the profile, makes
`isAuthenticated` false from every prior state, and is idempotent. -/
theorem c7_logout_contract (s : AuthState) :
    (logoutRun s).storage.accessToken = none ∧
    (logoutRun s).storage.refreshToken = none ∧
    (logoutRun s).user = none ∧
    (logoutRun s).accessToken = none ∧
    (logoutRun s).refreshToken = none ∧
    isAuthenticated (logoutRun s) = false ∧
    logoutRun (logoutRun s) = logoutRun s :=
  ⟨rfl, rfl, rfl, rfl, rfl, rfl, rfl⟩

/-- C10: a successful `login` response matching neither credential shape
writes and clears nothing — storage and the in-memory token cells are
exactly as before — and the handler still proceeds to the profile fetch,
whose request headers are computed from the pre-existing stored
credential. -/
theorem c10_login_frame (s : AuthState) (resp : Option AuthResponse)
    (fetch : Except JsError User) (h : shapelessResp resp = true) :
    persistLoginTokens s resp = s ∧
    profileFetchHeaders s resp = requestHeaders s.storage emptyHeaders ∧
    (loginRun s resp fetch).1.storage = s.storage ∧
    (loginRun s resp fetch).1.accessToken = s.accessToken ∧
    (loginRun s resp fetch).1.refreshToken = s.refreshToken := by
  have hp : persistLoginTokens s resp = s := by
    cases resp with
    | none => rfl
    | some r =>
      simp only [shapelessResp, Bool.and_eq_true, Bool.not_eq_true'] at h
      obtain ⟨h1, h2⟩ := h
      simp [persistLoginTokens, persistAccess, h1, h2]
  refine ⟨hp, ?_, ?_, ?_, ?_⟩
  · simp [profileFetchHeaders, hp]
  · cases fetch <;> simp [loginRun, hp]
  · cases fetch <;> simp [loginRun, hp]
  · cases fetch <;> simp [loginRun, hp]

/-- C10 (witness): a response with only an empty `access` field matches
neither shape; with credential `"OLD"` already stored, nothing changes and
the profile fetch is built from `"OLD"`. -/
theorem c10_login_frame_witness :
    persistLoginTokens (startState { accessToken := some "OLD", refreshToken := none })
        (some { token := none, access := some "", refresh := none, user := none }) =
      startState { accessToken := some "OLD", refreshToken := none } ∧
    profileFetchHeaders (startState { accessToken := some "OLD", refreshToken := none })
        (some { token := none, access := some "", refresh := none, user := none }) =
      requestHeaders (startState { accessToken := some "OLD", refreshToken := none }).storage emptyHeaders ∧
    (loginRun (startState { accessToken := some "OLD", refreshToken := none })
        (some { token := none, access := some "", refresh := none, user := none })
        (Except.ok { id := 1, username := "alice", email := "a@example.com" })).1.storage =
      (startState { accessToken := some "OLD", refreshToken := none }).storage ∧
    (loginRun (startState { accessToken := some "OLD", refreshToken := none })
        (some { token := none, access := some "", refresh := none, user := none })
        (Except.ok { id := 1, username := "alice", email := "a@example.com" })).1.accessToken =
      (startState { accessToken := some "OLD", refreshToken := none }).accessToken ∧
    (loginRun (startState { accessToken := some "OLD", refreshToken := none })
        (some { token := none, access := some "", refresh := none, user := none })
        (Except.ok { id := 1, username := "alice", email := "a@example.com" })).1.refreshToken =
      (startState { accessToken := some "OLD", refreshToken := none }).refreshToken :=
  c10_login_frame (startState { accessToken := some "OLD", refreshToken := none })
    (some { token := none, access := some "", refresh := none, user := none })
    (Except.ok { id := 1, username := "alice", email := "a@example.com" })
    (by decide)

end PharmacyUI
